import Mathlib

/-!
Verification of the General Problem Solver (`paip/gps.py`), a means-ends
analysis planner.  The Python module consists of four cooperating
functions — `gps`, `achieve_all`, `achieve`, `apply_operator` — operating
on lists of fact labels (strings) and operator records.

Embedding notes:
* Facts are strings; a state set, a goal list and the goal stack are
  `List Fact`, exactly as in the Python code.
* Python signals failure with `None`, and its truthiness tests
  (`if not states`, `if result`) also treat the empty list as falsy.
  We model intermediate results with `Res`: `Res.ok states` is a returned
  list (possibly empty), `Res.fail` is `None`.  The recursion of the
  Python code is bounded only by the goal-stack cycle check, so the
  embedding carries an explicit recursion-depth fuel; `Res.fuelOut` marks
  a computation the model cut off, and every function propagates it, so a
  top-level `Res.ok`/`Res.fail` certifies the run never hit the bound and
  is the genuine result of the Python recursion.
* `gps` (the entry point) seeds each operator's add list with a
  bookkeeping fact and, per the source, when `achieve_all` returns `None`
  its list comprehension iterates `None`, which in Python raises an
  uncaught `TypeError`; `GpsResult.typeError` records that outcome.
* The two loops inside `achieve_all` and the operator loop inside
  `achieve` are modelled by the helper functions `achieve_all_go` and
  `achieve_scan`; the recursive back edge (`apply_operator` calling
  `achieve_all` on the preconditions) is threaded through the `recur`
  parameter, which `achieve_all` instantiates with itself at one less
  fuel.
-/

namespace Gps

/-- A fact label ("son at home"): Python uses plain strings. -/
abbrev Fact := String

/-- An operator record: `{"action": ..., "preconds": ..., "add": ..., "delete": ...}`. -/
structure Op where
  action : Fact
  preconds : List Fact
  add : List Fact
  delete : List Fact
deriving DecidableEq

/-- Result of the internal solving functions.  `ok states` is a returned
list of states, `fail` is Python's `None`, `fuelOut` marks that the model
ran out of recursion fuel (no Python counterpart; always propagated). -/
inductive Res where
  | ok : List Fact → Res
  | fail : Res
  | fuelOut : Res
deriving DecidableEq

/-- Result of the entry point `gps`.  `plan` is the returned list;
`typeError` is the uncaught `TypeError` Python raises at line 87 when the
list comprehension iterates the `None` returned by a failed solve. -/
inductive GpsResult where
  | plan : List Fact → GpsResult
  | typeError : GpsResult
  | fuelOut : GpsResult
deriving DecidableEq

/-- The bookkeeping marker `prefix = 'Executing '` of `gps`. -/
def execTag : String := "Executing "

/-- Python's `state.startswith('Executing ')`: the marker's characters
are a prefix of the fact's characters. -/
def startsWithExec (s : Fact) : Bool := execTag.data.isPrefixOf s.data

/-- `apply_operator(operator, states, ops, goal, goal_stack)`: satisfy all of
the operator's preconditions (via `recur`, the `achieve_all` back edge, with
the goal pushed onto the goal stack), then merge: keep the states not in the
delete list and append the add list.  Python's `if not result: return None`
treats an empty precondition result as failure. -/
def apply_operator (recur : List Fact → List Op → List Fact → List Fact → Res)
    (op : Op) (states : List Fact) (ops : List Op) (goal : Fact)
    (goal_stack : List Fact) : Res :=
  match recur states ops op.preconds (goal :: goal_stack) with
  | Res.ok result =>
      if result = [] then Res.fail
      else Res.ok (result.filter (fun state => decide (state ∉ op.delete)) ++ op.add)
  | Res.fail => Res.fail
  | Res.fuelOut => Res.fuelOut

/-- The operator loop of `achieve`: `for op in operators:` skip operators
whose add list lacks the goal, apply the first appropriate one, and keep
scanning while the application result is falsy (`if result: return result`);
falling off the loop returns `None`. -/
def achieve_scan (recur : List Fact → List Op → List Fact → List Fact → Res)
    (states : List Fact) (ops : List Op) (rem : List Op) (goal : Fact)
    (goal_stack : List Fact) : Res :=
  match rem with
  | [] => Res.fail
  | op :: rest =>
    if goal ∈ op.add then
      match apply_operator recur op states ops goal goal_stack with
      | Res.ok result =>
          if result = [] then achieve_scan recur states ops rest goal goal_stack
          else Res.ok result
      | Res.fail => achieve_scan recur states ops rest goal goal_stack
      | Res.fuelOut => Res.fuelOut
    else achieve_scan recur states ops rest goal goal_stack

/-- `achieve(states, operators, goal, goal_stack)`: succeed unchanged if the
goal already holds, fail on a goal-stack cycle, otherwise scan the operator
collection. -/
def achieve (recur : List Fact → List Op → List Fact → List Fact → Res)
    (states : List Fact) (ops : List Op) (goal : Fact)
    (goal_stack : List Fact) : Res :=
  if goal ∈ states then Res.ok states
  else if goal ∈ goal_stack then Res.fail
  else achieve_scan recur states ops ops goal goal_stack

/-- The first loop of `achieve_all`: thread the state set through `achieve`
for each goal in order, failing as soon as a result is falsy
(`if not states: return None`). -/
def achieve_all_go (recur : List Fact → List Op → List Fact → List Fact → Res)
    (states : List Fact) (ops : List Op) (goals : List Fact)
    (goal_stack : List Fact) : Res :=
  match goals with
  | [] => Res.ok states
  | g :: rest =>
    match achieve recur states ops g goal_stack with
    | Res.ok s => if s = [] then Res.fail else achieve_all_go recur s ops rest goal_stack
    | Res.fail => Res.fail
    | Res.fuelOut => Res.fuelOut

/-- `achieve_all(states, ops, goals, goal_stack)`: achieve every goal in
order, then re-check that each goal still holds in the final state set (the
"prerequisite clobbers sibling goal" guard: `for goal in goals: if goal not
in states: return None`).  The fuel bounds the depth of the
`apply_operator → achieve_all` recursion. -/
def achieve_all : Nat → List Fact → List Op → List Fact → List Fact → Res
  | 0, _, _, _, _ => Res.fuelOut
  | fuel + 1, states, ops, goals, goal_stack =>
    match achieve_all_go (achieve_all fuel) states ops goals goal_stack with
    | Res.ok s => if ∀ g ∈ goals, g ∈ s then Res.ok s else Res.fail
    | Res.fail => Res.fail
    | Res.fuelOut => Res.fuelOut

/-- The seeding step of `gps`: `operator['add'].append(prefix + operator['action'])`.
Python mutates the operator in place; the model returns the mutated record. -/
def seedOp (op : Op) : Op := { op with add := op.add ++ [execTag ++ op.action] }

/-- The seeding loop of `gps` over the whole operator collection. -/
def seedOps (ops : List Op) : List Op := ops.map seedOp

/-- `gps(initial_states, goal_states, operators)`: seed the bookkeeping
facts, run `achieve_all` from the initial states with an empty goal stack,
and return the final states that start with the bookkeeping marker.  When
`achieve_all` returns `None` the comprehension `[state for state in
final_states ...]` iterates `None` and Python raises `TypeError`. -/
def gps (fuel : Nat) (initial_states : List Fact) (goal_states : List Fact)
    (operators : List Op) : GpsResult :=
  match achieve_all fuel initial_states (seedOps operators) goal_states [] with
  | Res.ok final_states => GpsResult.plan (final_states.filter startsWithExec)
  | Res.fail => GpsResult.typeError
  | Res.fuelOut => GpsResult.fuelOut

/-! Concrete problem data used by the claims. -/

/-- First operator of `SIMPLE_PROBLEM`. -/
def driveOp : Op :=
  { action := "drive son to school"
    preconds := ["son at home", "car works"]
    add := ["son at school"]
    delete := ["son at home"] }

/-- Second operator of `SIMPLE_PROBLEM`. -/
def shopOp : Op :=
  { action := "shop installs battery"
    preconds := ["car needs battery"]
    add := ["car works"]
    delete := ["car needs battery"] }

/-- `SIMPLE_PROBLEM["start"]`. -/
def simpleStart : List Fact := ["son at home", "car needs battery"]

/-- `SIMPLE_PROBLEM["finish"]`. -/
def simpleGoals : List Fact := ["son at school"]

/-- `SIMPLE_PROBLEM["ops"]`. -/
def simpleOps : List Op := [driveOp, shopOp]

/-- The bookkeeping fact recorded for `shopOp`. -/
def execShopFact : Fact := "Executing shop installs battery"

/-- The bookkeeping fact recorded for `driveOp`. -/
def execDriveFact : Fact := "Executing drive son to school"

/-- The final state set reached by a solve of `SIMPLE_PROBLEM`. -/
def simpleFinal : List Fact :=
  ["car works", "Executing shop installs battery", "son at school",
   "Executing drive son to school"]

/-- A generic goal fact used in small test problems. -/
def gFact : Fact := "g"

/-- A generic precondition fact used in small test problems. -/
def pFact : Fact := "p"

/-- A generic state fact used in small test problems. -/
def xFact : Fact := "x"

/-- Goal fact of the cyclic problem. -/
def aFact : Fact := "a"

/-- Intermediate fact of the cyclic problem. -/
def bFact : Fact := "b"

/-- Cyclic problem: producing "a" requires "b". -/
def cycA : Op := { action := "make a", preconds := [bFact], add := [aFact], delete := [] }

/-- Cyclic problem: producing "b" requires "a" again, closing the cycle. -/
def cycB : Op := { action := "make b", preconds := [aFact], add := [bFact], delete := [] }

/-- The cyclic operator collection. -/
def cycOps : List Op := [cycA, cycB]

/-- First sibling goal of the clobbering problem. -/
def clobG1 : Fact := "g1"

/-- Second sibling goal of the clobbering problem. -/
def clobG2 : Fact := "g2"

/-- The clobbering operator: achieves "g2" but deletes "g1". -/
def clobOp : Op := { action := "make g2", preconds := [], add := [clobG2], delete := [clobG1] }

/-- Operator collection of the clobbering problem. -/
def clobOps : List Op := [clobOp]

/-- Initial states of the clobbering problem: "g1" already holds. -/
def clobStart : List Fact := [clobG1]

/-- A fact held initially in the order-sensitivity problem. -/
def haveFact : Fact := "have it"

/-- Order-sensitivity problem: first listed operator for the goal, whose
precondition is unachievable. -/
def ordFirst : Op :=
  { action := "way one", preconds := ["impossible"], add := [gFact], delete := [] }

/-- Order-sensitivity problem: second listed operator for the goal, whose
precondition already holds. -/
def ordSecond : Op :=
  { action := "way two", preconds := [haveFact], add := [gFact], delete := [] }

/-- An operator with no preconditions that adds the goal fact. -/
def freeOp : Op := { action := "free add", preconds := [], add := [gFact], delete := [] }

/-- An initial fact that starts with the bookkeeping marker but corresponds
to no operator. -/
def bogusFact : Fact := "Executing bogus"

/-- An operator whose delete list contains the bogus marker fact. -/
def delOp : Op :=
  { action := "act", preconds := [pFact], add := [gFact], delete := [bogusFact] }

/-- The bookkeeping fact recorded for `delOp`. -/
def execActFact : Fact := "Executing act"

/-! Claim theorems. -/

/-- C1: for an unsolvable problem the search itself fails with an explicit
failure value (`achieve_all` returns `None`, modelled `Res.fail`), but the
entry point `gps` then iterates that `None` in its list comprehension and
raises an uncaught `TypeError` instead of returning the failure value its
docstring promises. -/
theorem gps_failure_is_type_error :
    gps 10 [] [gFact] [] = GpsResult.typeError
    ∧ achieve_all 10 [] (seedOps []) [gFact] [] = Res.fail := by decide

/-- C2 counterexample: on the canonical problem the plan entries are the
bookkeeping facts with the "Executing " marker still attached; they are not
bare action names, so no stripping happens. -/
theorem plan_entry_keeps_marker :
    gps 10 simpleStart simpleGoals simpleOps
      = GpsResult.plan [execShopFact, execDriveFact]
    ∧ startsWithExec execShopFact = true
    ∧ execShopFact ∉ simpleOps.map Op.action := by decide

/-- C2 (amended): on success `gps` returns exactly the bookkeeping facts of
the final state set computed by `achieve_all`, in their relative order in
that state set (a sublist), with the "Executing " marker retained. -/
theorem plan_is_filtered_bookkeeping
    (fuel : Nat) (init goals : List Fact) (ops : List Op) (final : List Fact)
    (h : achieve_all fuel init (seedOps ops) goals [] = Res.ok final) :
    gps fuel init goals ops = GpsResult.plan (final.filter startsWithExec)
    ∧ (final.filter startsWithExec).Sublist final
    ∧ ∀ s ∈ final.filter startsWithExec, startsWithExec s = true := by
  refine ⟨?_, List.filter_sublist _, fun s hs => (List.mem_filter.mp hs).2⟩
  unfold gps
  rw [h]

/-- C2 witness: the amended statement instantiated on the canonical
problem and its concrete final state set. -/
theorem plan_is_filtered_bookkeeping_witness :
    gps 10 simpleStart simpleGoals simpleOps
      = GpsResult.plan (simpleFinal.filter startsWithExec)
    ∧ (simpleFinal.filter startsWithExec).Sublist simpleFinal
    ∧ ∀ s ∈ simpleFinal.filter startsWithExec, startsWithExec s = true :=
  plan_is_filtered_bookkeeping 10 simpleStart simpleGoals simpleOps simpleFinal
    (by decide)

/-- C3 counterexample: on the canonical two-operator problem `gps` does not
return the bare action names `["shop installs battery", "drive son to
school"]`. -/
theorem simple_plan_not_bare_names :
    gps 10 simpleStart simpleGoals simpleOps
      ≠ GpsResult.plan [shopOp.action, driveOp.action] := by decide

/-- C3 (amended): on the canonical two-operator problem `gps` returns the
plan `["Executing shop installs battery", "Executing drive son to school"]`,
in that order. -/
theorem simple_plan_value :
    gps 10 simpleStart simpleGoals simpleOps
      = GpsResult.plan [execShopFact, execDriveFact] := by decide

/-- C4: seeding is not idempotent.  Re-seeding the already seeded canonical
operators (which is what a second `gps` call does to the collection the
first call mutated in place) leaves two copies of each bookkeeping fact in
the add lists, and the second solve's plan lists every action twice,
differing from the single-seeded solve. -/
theorem double_seed_duplicates :
    (seedOps (seedOps simpleOps)).map (fun op => op.add.count (execTag ++ op.action))
      = [2, 2]
    ∧ gps 10 simpleStart simpleGoals (seedOps simpleOps)
      = GpsResult.plan [execShopFact, execShopFact, execDriveFact, execDriveFact]
    ∧ gps 10 simpleStart simpleGoals (seedOps simpleOps)
      ≠ gps 10 simpleStart simpleGoals simpleOps := by decide

/-- C5 counterexample: when the goal already holds in the state set, `achieve`
succeeds even though the goal is also on the goal stack — the membership
check precedes the cycle check, so "already on the goal stack implies
immediate failure" is false as a universal statement. -/
theorem stack_hit_but_goal_holds :
    aFact ∈ ([aFact] : List Fact)
    ∧ achieve (achieve_all 5) [aFact] [] aFact [aFact] = Res.ok [aFact] := by
  decide

/-- C5 (amended): when the target fact does not already hold, a target fact
on the goal stack makes `achieve` fail immediately — for every `recur`
argument, i.e. without any recursive call — and consequently the cyclic
two-operator problem fails (with `Res.fail`, not fuel exhaustion) within
recursion depth 10. -/
theorem achieve_cycle_detection :
    (∀ (recur : List Fact → List Op → List Fact → List Fact → Res)
        (states : List Fact) (ops : List Op) (goal : Fact)
        (goal_stack : List Fact),
        goal ∉ states → goal ∈ goal_stack →
        achieve recur states ops goal goal_stack = Res.fail)
    ∧ achieve_all 10 [] (seedOps cycOps) [aFact] [] = Res.fail := by
  refine ⟨?_, by decide⟩
  intro recur states ops goal goal_stack h1 h2
  unfold achieve
  rw [if_neg h1, if_pos h2]

/-- C5 witness: the cycle check instantiated concretely. -/
theorem achieve_cycle_detection_witness :
    achieve (achieve_all 3) [] [] aFact [aFact] = Res.fail :=
  achieve_cycle_detection.1 (achieve_all 3) [] [] aFact [aFact]
    (by decide) (by decide)

/-- C6: whenever `achieve_all` succeeds, every listed goal is a member of
the returned state set (enforced by the second, re-checking loop); and in
the concrete clobbering problem the combined goal list fails even though
each goal is individually achievable. -/
theorem achieve_all_goals_member :
    (∀ (fuel : Nat) (states : List Fact) (ops : List Op) (goals : List Fact)
        (goal_stack : List Fact) (s : List Fact),
        achieve_all fuel states ops goals goal_stack = Res.ok s →
        ∀ g ∈ goals, g ∈ s)
    ∧ achieve_all 10 clobStart clobOps [clobG1, clobG2] [] = Res.fail
    ∧ achieve_all 10 clobStart clobOps [clobG1] [] = Res.ok clobStart
    ∧ achieve_all 10 clobStart clobOps [clobG2] [] = Res.ok [clobG2] := by
  refine ⟨?_, by decide, by decide, by decide⟩
  intro fuel states ops goals goal_stack s h g hg
  cases fuel with
  | zero => exact Res.noConfusion h
  | succ fuel =>
    simp only [achieve_all] at h
    split at h
    · split at h
      · rename_i hall
        cases h
        exact hall g hg
      · exact Res.noConfusion h
    · exact Res.noConfusion h
    · exact Res.noConfusion h

/-- C6 witness: the membership property instantiated on the clobbering
problem's first goal. -/
theorem achieve_all_goals_member_witness : clobG1 ∈ clobStart :=
  achieve_all_goals_member.1 10 clobStart clobOps [clobG1] [] clobStart
    (by decide) clobG1 (by decide)

/-- Helper for C7: the operator loop skips every leading operator whose add
list does not contain the goal. -/
theorem achieve_scan_skip
    (recur : List Fact → List Op → List Fact → List Fact → Res)
    (states : List Fact) (ops : List Op) (goal : Fact) (goal_stack : List Fact)
    (pre rem : List Op) (hpre : ∀ o ∈ pre, goal ∉ o.add) :
    achieve_scan recur states ops (pre ++ rem) goal goal_stack
      = achieve_scan recur states ops rem goal goal_stack := by
  induction pre with
  | nil => rfl
  | cons o pre ih =>
    have ho : goal ∉ o.add := hpre o (List.mem_cons_self o pre)
    simp only [List.cons_append, achieve_scan, if_neg ho]
    exact ih (fun o2 h2 => hpre o2 (List.mem_cons_of_mem o h2))

/-- C7: with the goal neither holding nor on the goal stack, `achieve` scans
the operator collection in order: operators whose add list lacks the goal are
skipped; the first candidate whose application returns a non-empty state set
determines the result; and if the first candidate's application fails, the
scan continues with the remaining operators. -/
theorem achieve_first_match :
    ∀ (recur : List Fact → List Op → List Fact → List Fact → Res)
      (states : List Fact) (pre : List Op) (op : Op) (rest : List Op)
      (goal : Fact) (goal_stack : List Fact),
      goal ∉ states → goal ∉ goal_stack →
      (∀ o ∈ pre, goal ∉ o.add) → goal ∈ op.add →
      (∀ result,
          apply_operator recur op states (pre ++ op :: rest) goal goal_stack
            = Res.ok result →
          result ≠ [] →
          achieve recur states (pre ++ op :: rest) goal goal_stack
            = Res.ok result)
      ∧ (apply_operator recur op states (pre ++ op :: rest) goal goal_stack
            = Res.fail →
          achieve recur states (pre ++ op :: rest) goal goal_stack
            = achieve_scan recur states (pre ++ op :: rest) rest goal goal_stack) := by
  intro recur states pre op rest goal goal_stack h1 h2 hpre hadd
  have hach : achieve recur states (pre ++ op :: rest) goal goal_stack
      = achieve_scan recur states (pre ++ op :: rest) (op :: rest) goal goal_stack := by
    unfold achieve
    rw [if_neg h1, if_neg h2]
    exact achieve_scan_skip recur states (pre ++ op :: rest) goal goal_stack pre
      (op :: rest) hpre
  constructor
  · intro result happ hne
    rw [hach]
    unfold achieve_scan
    rw [if_pos hadd, happ]
    simp [hne]
  · intro happ
    rw [hach]
    simp only [achieve_scan, if_pos hadd, happ]

/-- C7 witness: in the order-sensitivity problem the first candidate's
application fails and the scan moves on to the rest, through which the goal
is then achieved. -/
theorem achieve_first_match_witness :
    apply_operator (achieve_all 9) ordFirst [haveFact] [ordFirst, ordSecond]
        gFact [] = Res.fail
    ∧ achieve (achieve_all 9) [haveFact] [ordFirst, ordSecond] gFact []
        = achieve_scan (achieve_all 9) [haveFact] [ordFirst, ordSecond]
            [ordSecond] gFact []
    ∧ achieve (achieve_all 9) [haveFact] [ordFirst, ordSecond] gFact []
        = Res.ok [haveFact, gFact] :=
  ⟨by decide,
   (achieve_first_match (achieve_all 9) [haveFact] [] ordFirst [ordSecond]
      gFact [] (by decide) (by decide) (by decide) (by decide)).2 (by decide),
   by decide⟩

/-- C8: when the precondition call returns a non-falsy state set,
`apply_operator` returns exactly that set with the delete-listed facts
removed and the add list appended — a plain filter and append, with no
deduplication. -/
theorem apply_operator_result :
    ∀ (recur : List Fact → List Op → List Fact → List Fact → Res)
      (op : Op) (states : List Fact) (ops : List Op) (goal : Fact)
      (goal_stack : List Fact) (result : List Fact),
      recur states ops op.preconds (goal :: goal_stack) = Res.ok result →
      result ≠ [] →
      apply_operator recur op states ops goal goal_stack
        = Res.ok (result.filter (fun state => decide (state ∉ op.delete))
            ++ op.add) := by
  intro recur op states ops goal goal_stack result h hne
  unfold apply_operator
  rw [h]
  simp [hne]

/-- C8 witness: the merge formula instantiated on a one-operator problem. -/
theorem apply_operator_result_witness :
    apply_operator (achieve_all 9) freeOp [xFact] [freeOp] gFact []
      = Res.ok (([xFact] : List Fact).filter
            (fun state => decide (state ∉ freeOp.delete)) ++ freeOp.add) :=
  apply_operator_result (achieve_all 9) freeOp [xFact] [freeOp] gFact [] [xFact]
    (by decide) (by decide)

/-- C9: an empty state set is treated as failure at the internal interfaces:
`apply_operator` fails when the precondition call returns an empty state
set, the goal loop of `achieve_all` fails when `achieve` returns an empty
state set, and concretely a solve from an empty initial state set whose goal
an operator without preconditions could add fails (and the entry point turns
that failure into the `TypeError` of C1). -/
theorem empty_states_is_failure :
    (∀ (recur : List Fact → List Op → List Fact → List Fact → Res)
        (op : Op) (states : List Fact) (ops : List Op) (goal : Fact)
        (goal_stack : List Fact),
        recur states ops op.preconds (goal :: goal_stack) = Res.ok [] →
        apply_operator recur op states ops goal goal_stack = Res.fail)
    ∧ (∀ (recur : List Fact → List Op → List Fact → List Fact → Res)
        (states : List Fact) (ops : List Op) (g : Fact) (rest : List Fact)
        (goal_stack : List Fact),
        achieve recur states ops g goal_stack = Res.fail
          ∨ achieve recur states ops g goal_stack = Res.ok [] →
        achieve_all_go recur states ops (g :: rest) goal_stack = Res.fail)
    ∧ achieve_all 10 [] (seedOps [freeOp]) [gFact] [] = Res.fail
    ∧ gps 10 [] [gFact] [freeOp] = GpsResult.typeError := by
  refine ⟨?_, ?_, by decide, by decide⟩
  · intro recur op states ops goal goal_stack h
    unfold apply_operator
    rw [h]
    rfl
  · intro recur states ops g rest goal_stack h
    unfold achieve_all_go
    cases h with
    | inl h => rw [h]
    | inr h => rw [h]; rfl

/-- C9 witness: the empty-result cases instantiated concretely. -/
theorem empty_states_is_failure_witness :
    apply_operator (achieve_all 9) freeOp [] [freeOp] gFact [] = Res.fail
    ∧ achieve_all_go (achieve_all 9) [] [] [gFact] [] = Res.fail :=
  ⟨empty_states_is_failure.1 (achieve_all 9) freeOp [] [freeOp] gFact []
     (by decide),
   empty_states_is_failure.2.1 (achieve_all 9) [] [] gFact [] []
     (Or.inl (by decide))⟩

/-- Helper for C10: `apply_operator` keeps any fact of the incoming state
set that the operator's delete list does not mention, provided the
precondition call (`recur`) also keeps it. -/
theorem apply_operator_preserves
    (recur : List Fact → List Op → List Fact → List Fact → Res)
    (s : Fact) (op : Op) (states : List Fact) (ops : List Op) (goal : Fact)
    (goal_stack : List Fact) (r : List Fact)
    (hrec : ∀ (states2 goals2 gs2 r2 : List Fact),
        s ∈ states2 → recur states2 ops goals2 gs2 = Res.ok r2 → s ∈ r2)
    (hdel : s ∉ op.delete) (hs : s ∈ states)
    (h : apply_operator recur op states ops goal goal_stack = Res.ok r) :
    s ∈ r := by
  unfold apply_operator at h
  split at h
  next result heq =>
    split at h
    · exact Res.noConfusion h
    · cases h
      have hres : s ∈ result :=
        hrec states op.preconds (goal :: goal_stack) result hs heq
      exact List.mem_append_left _
        (List.mem_filter.mpr ⟨hres, decide_eq_true hdel⟩)
  next heq => exact Res.noConfusion h
  next heq => exact Res.noConfusion h

/-- Helper for C10: the operator loop keeps any fact no operator of the
collection deletes. -/
theorem achieve_scan_preserves
    (recur : List Fact → List Op → List Fact → List Fact → Res)
    (s : Fact) (states : List Fact) (ops : List Op) (goal : Fact)
    (goal_stack : List Fact)
    (hrec : ∀ (states2 goals2 gs2 r2 : List Fact),
        s ∈ states2 → recur states2 ops goals2 gs2 = Res.ok r2 → s ∈ r2)
    (hdel : ∀ op ∈ ops, s ∉ op.delete) (hs : s ∈ states) :
    ∀ (rem : List Op) (r : List Fact), (∀ op ∈ rem, op ∈ ops) →
      achieve_scan recur states ops rem goal goal_stack = Res.ok r → s ∈ r := by
  intro rem
  induction rem with
  | nil => intro r _ h; exact Res.noConfusion h
  | cons op rest ih =>
    intro r hsub h
    unfold achieve_scan at h
    split at h
    · split at h
      next result heq =>
        split at h
        · exact ih r (fun o ho => hsub o (List.mem_cons_of_mem op ho)) h
        · cases h
          exact apply_operator_preserves recur s op states ops goal goal_stack
            _ hrec (hdel op (hsub op (List.mem_cons_self op rest))) hs heq
      next heq => exact ih r (fun o ho => hsub o (List.mem_cons_of_mem op ho)) h
      next heq => exact Res.noConfusion h
    · exact ih r (fun o ho => hsub o (List.mem_cons_of_mem op ho)) h

/-- Helper for C10: `achieve` keeps any fact no operator deletes. -/
theorem achieve_preserves
    (recur : List Fact → List Op → List Fact → List Fact → Res)
    (s : Fact) (states : List Fact) (ops : List Op) (goal : Fact)
    (goal_stack : List Fact) (r : List Fact)
    (hrec : ∀ (states2 goals2 gs2 r2 : List Fact),
        s ∈ states2 → recur states2 ops goals2 gs2 = Res.ok r2 → s ∈ r2)
    (hdel : ∀ op ∈ ops, s ∉ op.delete) (hs : s ∈ states)
    (h : achieve recur states ops goal goal_stack = Res.ok r) : s ∈ r := by
  unfold achieve at h
  split at h
  · cases h; exact hs
  · split at h
    · exact Res.noConfusion h
    · exact achieve_scan_preserves recur s states ops goal goal_stack hrec hdel
        hs ops r (fun o ho => ho) h

/-- Helper for C10: the goal loop of `achieve_all` keeps any fact no
operator deletes. -/
theorem achieve_all_go_preserves
    (recur : List Fact → List Op → List Fact → List Fact → Res)
    (s : Fact) (ops : List Op)
    (hrec : ∀ (states2 goals2 gs2 r2 : List Fact),
        s ∈ states2 → recur states2 ops goals2 gs2 = Res.ok r2 → s ∈ r2)
    (hdel : ∀ op ∈ ops, s ∉ op.delete) :
    ∀ (goals states goal_stack r : List Fact), s ∈ states →
      achieve_all_go recur states ops goals goal_stack = Res.ok r → s ∈ r := by
  intro goals
  induction goals with
  | nil =>
    intro states gs r hs h
    unfold achieve_all_go at h
    cases h
    exact hs
  | cons g rest ih =>
    intro states gs r hs h
    unfold achieve_all_go at h
    split at h
    next s2 heq =>
      split at h
      · exact Res.noConfusion h
      · exact ih s2 gs r
          (achieve_preserves recur s states ops g gs s2 hrec hdel hs heq) h
    next heq => exact Res.noConfusion h
    next heq => exact Res.noConfusion h

/-- Helper for C10: a successful `achieve_all` keeps every initial fact that
no operator of the collection deletes, at every fuel. -/
theorem achieve_all_preserves (s : Fact) (ops : List Op)
    (hdel : ∀ op ∈ ops, s ∉ op.delete) :
    ∀ (fuel : Nat) (states goals goal_stack r : List Fact),
      s ∈ states → achieve_all fuel states ops goals goal_stack = Res.ok r →
      s ∈ r := by
  intro fuel
  induction fuel with
  | zero => intro states goals gs r hs h; exact Res.noConfusion h
  | succ fuel ih =>
    intro states goals gs r hs h
    simp only [achieve_all] at h
    split at h
    next s2 heq =>
      split at h
      · cases h
        exact achieve_all_go_preserves (achieve_all fuel) s ops
          (fun states2 goals2 gs2 r2 hs2 h2 => ih states2 goals2 gs2 r2 hs2 h2)
          hdel goals states gs _ hs heq
      · exact Res.noConfusion h
    next heq => exact Res.noConfusion h
    next heq => exact Res.noConfusion h

/-- C10 counterexample: an initial fact carrying the bookkeeping marker is
absent from the plan when an applied operator's delete list removes it, so
not every marker-carrying initial fact reaches the plan. -/
theorem deleted_marker_missing_from_plan :
    bogusFact ∈ ([bogusFact, pFact] : List Fact)
    ∧ startsWithExec bogusFact = true
    ∧ gps 10 [bogusFact, pFact] [gFact] [delOp] = GpsResult.plan [execActFact]
    ∧ bogusFact ∉ ([execActFact] : List Fact) := by decide

/-- C10 (amended): every initial fact carrying the "Executing " marker that
no operator's delete list mentions is included in the plan of a successful
solve, because plan extraction selects final-state facts by the marker
alone. -/
theorem initial_marker_in_plan
    (fuel : Nat) (init goals : List Fact) (ops : List Op) (p : List Fact)
    (s : Fact) (hp : gps fuel init goals ops = GpsResult.plan p)
    (hs : s ∈ init) (hex : startsWithExec s = true)
    (hdel : ∀ op ∈ ops, s ∉ op.delete) : s ∈ p := by
  unfold gps at hp
  split at hp
  next final heq =>
    cases hp
    have hdel2 : ∀ op ∈ seedOps ops, s ∉ op.delete := by
      intro op hop
      obtain ⟨op0, hop0, rfl⟩ := List.mem_map.mp hop
      exact hdel op0 hop0
    have hfin : s ∈ final :=
      achieve_all_preserves s (seedOps ops) hdel2 fuel init goals [] final hs heq
    exact List.mem_filter.mpr ⟨hfin, hex⟩
  next heq => exact GpsResult.noConfusion hp
  next heq => exact GpsResult.noConfusion hp

/-- C10 witness: a fake marker fact added to the canonical problem's initial
states, deleted by no operator, shows up in the plan. -/
theorem initial_marker_in_plan_witness :
    bogusFact ∈ ([bogusFact, execShopFact, execDriveFact] : List Fact) :=
  initial_marker_in_plan 10 (bogusFact :: simpleStart) simpleGoals simpleOps
    [bogusFact, execShopFact, execDriveFact] bogusFact
    (by decide) (by decide) (by decide) (by decide)

end Gps

